import Mathlib

/-!
Shallow embedding of the audio capture and segmentation core of the
handy-clone repository (src-tauri/src/managers/audio.rs and
src-tauri/src/audio_toolkit/system_audio_macos.rs /
system_audio_windows.rs), together with proofs settling the frozen
claims about it.

Modelling conventions:
* 32-bit float PCM samples are modelled as exact rationals (ℚ); the
  threshold comparison `rms > 1e-5` on a nonnegative rms is modelled by
  the equivalent squared comparison `sumSq / len > 1e-10`, avoiding sqrt.
* Mutexed shared buffers become explicit list-valued state fields;
  stateful methods become functions `state → result × state`.
* Wall-clock sleeps are dropped; what a sleeping probe observes in the
  concurrently written ring buffer is supplied as an explicit list of
  buffer snapshots, one per probe round.
-/

namespace HandyClone

/-- A PCM sample (f32 in the source, modelled exactly as ℚ). -/
abbrev Sample := ℚ

/-- `WHISPER_SAMPLE_RATE` in managers/audio.rs. -/
def WHISPER_SAMPLE_RATE : ℕ := 16000

/-- `MIN_AUDIO_SECS` in the always-on transcription loop. -/
def MIN_AUDIO_SECS : ℕ := 2

/-- `OVERLAP_SECS` in the always-on transcription loop. -/
def OVERLAP_SECS : ℕ := 1

/-- `MIN_SAMPLES = MIN_AUDIO_SECS * 16000` in the loop body. -/
def MIN_SAMPLES : ℕ := MIN_AUDIO_SECS * 16000

/-- `OVERLAP_SAMPLES = OVERLAP_SECS * 16000` in the loop body. -/
def OVERLAP_SAMPLES : ℕ := OVERLAP_SECS * 16000

/-! ### Sliding-window accumulation (managers/audio.rs, always-on loop)

One iteration of the loop appends the (resampled) newly read samples to
`accumulated_buffer` and then, if the buffer holds at least `MIN_SAMPLES`,
drains a prefix: all but the last `OVERLAP_SAMPLES` when the length
exceeds `OVERLAP_SAMPLES`, everything otherwise.  The drained prefix is
the segment handed to the transcription consumer. -/

/-- The extraction step performed on `accumulated_buffer` once per loop
iteration: returns `(samples_to_transcribe, remaining buffer)`. -/
def slideExtract (buf : List Sample) : List Sample × List Sample :=
  if MIN_SAMPLES ≤ buf.length then
    if OVERLAP_SAMPLES < buf.length then
      (buf.take (buf.length - OVERLAP_SAMPLES), buf.drop (buf.length - OVERLAP_SAMPLES))
    else
      (buf, [])
  else
    ([], buf)

/-- One loop iteration's effect on the accumulation buffer: append the
newly read (already resampled) samples, then extract. -/
def slideStep (buf newSamples : List Sample) : List Sample × List Sample :=
  slideExtract (buf ++ newSamples)

/-- Run the sliding-window loop over a sequence of read results,
returning the list of extracted segments and the final retained buffer. -/
def runLoop : List Sample → List (List Sample) → List (List Sample) × List Sample
  | buf, [] => ([], buf)
  | buf, r :: rs =>
    let p := slideStep buf r
    let q := runLoop p.2 rs
    (p.1 :: q.1, q.2)

theorem slideExtract_append (buf : List Sample) :
    (slideExtract buf).1 ++ (slideExtract buf).2 = buf := by
  unfold slideExtract
  split
  · split
    · simp
    · simp
  · simp

theorem slideStep_append (buf r : List Sample) :
    (slideStep buf r).1 ++ (slideStep buf r).2 = buf ++ r :=
  slideExtract_append (buf ++ r)

theorem runLoop_join (buf : List Sample) (reads : List (List Sample)) :
    ((runLoop buf reads).1).flatten ++ (runLoop buf reads).2 = buf ++ reads.flatten := by
  induction reads generalizing buf with
  | nil => simp [runLoop]
  | cons r rs ih =>
    simp only [runLoop, List.flatten_cons, List.append_assoc]
    rw [ih ((slideStep buf r).2)]
    rw [← List.append_assoc, slideStep_append, List.append_assoc]

/-- C1: No-loss sliding window.  Whenever the accumulation buffer (after
appending the new read) holds at least `MIN_SAMPLES = 32000` samples, the
loop extracts exactly the buffer contents minus the last
`OVERLAP_SAMPLES = 16000` samples, which are retained as the start of the
next window; and for any sequence of read results fed to the loop, the
concatenation of all extracted segments followed by the final retained
buffer equals the full appended sample sequence, in order. -/
theorem C1_sliding_window_no_loss (buf r : List Sample) (reads : List (List Sample))
    (h : MIN_SAMPLES ≤ (buf ++ r).length) :
    (slideStep buf r).1 = (buf ++ r).take ((buf ++ r).length - OVERLAP_SAMPLES) ∧
    (slideStep buf r).2 = (buf ++ r).drop ((buf ++ r).length - OVERLAP_SAMPLES) ∧
    (slideStep buf r).2.length = OVERLAP_SAMPLES ∧
    ((runLoop [] reads).1).flatten ++ (runLoop [] reads).2 = reads.flatten := by
  have hov : OVERLAP_SAMPLES < (buf ++ r).length := by
    have : OVERLAP_SAMPLES < MIN_SAMPLES := by decide
    omega
  refine ⟨?_, ?_, ?_, ?_⟩
  · unfold slideStep slideExtract
    rw [if_pos h, if_pos hov]
  · unfold slideStep slideExtract
    rw [if_pos h, if_pos hov]
  · unfold slideStep slideExtract
    rw [if_pos h, if_pos hov]
    simp only [List.length_drop]
    omega
  · simpa using runLoop_join [] reads

/-- A buffer of `n` zero samples, used to build concrete inputs. -/
def zeros (n : ℕ) : List Sample := List.replicate n 0

theorem zeros_length (n : ℕ) : (zeros n).length = n := by
  simp [zeros]

/-- Witness for C1 at a concrete input: a 32000-sample buffer with an
empty read satisfies the hypothesis, and the theorem applies. -/
theorem C1_sliding_window_no_loss_witness :
    MIN_SAMPLES ≤ ((zeros 32000) ++ ([] : List Sample)).length ∧
    ((slideStep (zeros 32000) []).1 =
      ((zeros 32000) ++ ([] : List Sample)).take
        (((zeros 32000) ++ ([] : List Sample)).length - OVERLAP_SAMPLES) ∧
     (slideStep (zeros 32000) []).2 =
      ((zeros 32000) ++ ([] : List Sample)).drop
        (((zeros 32000) ++ ([] : List Sample)).length - OVERLAP_SAMPLES) ∧
     (slideStep (zeros 32000) []).2.length = OVERLAP_SAMPLES ∧
     ((runLoop [] [[(1 : Sample)]]).1).flatten ++ (runLoop [] [[(1 : Sample)]]).2 =
       ([[(1 : Sample)]] : List (List Sample)).flatten) := by
  have h : MIN_SAMPLES ≤ ((zeros 32000) ++ ([] : List Sample)).length := by
    rw [List.length_append, zeros_length, List.length_nil]
    norm_num [MIN_SAMPLES, MIN_AUDIO_SECS]
  exact ⟨h, C1_sliding_window_no_loss (zeros 32000) [] [[(1 : Sample)]] h⟩

/-! ### Capture backends (audio_toolkit/system_audio_macos.rs and
system_audio_windows.rs)

`MacOSSystemAudio` / `WindowsSystemAudio` own a mutex-protected ring
buffer (`VecDeque<f32>`) of pending mono samples, modelled as a list in
production (FIFO) order, plus the capture flags.  The spawned helper
process / cpal stream thread and the wall clock are abstracted away: what
the real-time probes and checks observe is passed in explicitly. -/

/-- `MacOSSystemAudio` state (macOS backend). `hasProcess` models
`capture_process.is_some()`. -/
structure MacOSSystemAudio where
  is_capturing : Bool
  permission_denied : Bool
  sample_buffer : List Sample
  hasProcess : Bool
  use_blackhole : Bool
deriving DecidableEq

/-- `MacOSSystemAudio::new`. -/
def MacOSSystemAudio.new : MacOSSystemAudio :=
  { is_capturing := false, permission_denied := false, sample_buffer := [],
    hasProcess := false, use_blackhole := false }

/-- `MacOSSystemAudio::read_samples`: non-blocking drain of the whole
ring buffer; `Ok(None)` when empty (the `Result` is always `Ok` in the
source, so it is elided). -/
def MacOSSystemAudio.read_samples (c : MacOSSystemAudio) :
    Option (List Sample) × MacOSSystemAudio :=
  if c.sample_buffer.isEmpty then (none, c)
  else (some c.sample_buffer, { c with sample_buffer := [] })

/-- The stream-callback / stdout-reader side: freshly produced mono
samples are appended at the back of the ring buffer (`buf.extend`),
preserving production order. -/
def MacOSSystemAudio.produce (c : MacOSSystemAudio) (new : List Sample) :
    MacOSSystemAudio :=
  { c with sample_buffer := c.sample_buffer ++ new }

/-- `MacOSSystemAudio::stop_capture`: no-op when not capturing; otherwise
signals the BlackHole thread or kills the helper process, clears the
sample buffer and resets the flags. -/
def MacOSSystemAudio.stop_capture (c : MacOSSystemAudio) : MacOSSystemAudio :=
  if c.is_capturing then
    let c1 := if c.use_blackhole then c else { c with hasProcess := false }
    { c1 with sample_buffer := [], is_capturing := false, use_blackhole := false }
  else c

/-- Sum of squared samples (the accumulator of the RMS computation). -/
def sumSq (l : List Sample) : Sample := (l.map (fun s => s * s)).sum

/-- The RMS threshold `0.00001` used by the audio-detection probes. -/
def RMS_THRESHOLD : ℚ := 1 / 100000

/-- `rms > 0.00001` where `rms = sqrt(sumSq l / l.length)`: modelled by
the equivalent squared comparison `THRESHOLD^2 * length < sumSq`
(equivalent for every length, since for an empty list both sides are 0). -/
def rmsExceedsThreshold (l : List Sample) : Bool :=
  decide (RMS_THRESHOLD ^ 2 * (l.length : ℚ) < sumSq l)

/-- One audio-detection check of `start_blackhole_capture`: observe the
ring buffer; if it is nonempty, compute the RMS of the most recent up to
48000 samples (one second at 48 kHz; the source iterates the buffer in
reverse) and compare against the threshold. -/
def probeCheck (buf : List Sample) : Bool :=
  if 0 < buf.length then
    let samples := buf.reverse.take 48000
    if samples.isEmpty then false else rmsExceedsThreshold samples
  else false

/-- The probe's round structure: try each observed buffer snapshot in
turn, stopping at the first detection. -/
def probeRounds : List (List Sample) → Bool
  | [] => false
  | b :: rest => if probeCheck b then true else probeRounds rest

/-- Number of one-second checks the probe performs on the given
snapshots (each round counts, detection stops the probe). -/
def probeChecksUsed : List (List Sample) → ℕ
  | [] => 0
  | b :: rest => if probeCheck b then 1 else 1 + probeChecksUsed rest

/-- The `for check_round in 1..=5` probe of `start_blackhole_capture`:
at most 5 one-second checks over the buffer snapshots observed after
each sleep. -/
def probeAudio (snaps : List (List Sample)) : Bool := probeRounds (snaps.take 5)

/-- `MacOSSystemAudio::start_blackhole_capture`. `configOk` models
`device.default_input_config()` succeeding (the only error exit).  On
success the stream thread is spawned, `use_blackhole` and `is_capturing`
are set, and the bounded audio probe runs; its outcome is returned as
`Ok(audio_detected)` — `some detected` here, `none` for the `Err` case. -/
def MacOSSystemAudio.start_blackhole_capture (c : MacOSSystemAudio)
    (configOk : Bool) (snaps : List (List Sample)) :
    Option Bool × MacOSSystemAudio :=
  if configOk then
    (some (probeAudio snaps), { c with use_blackhole := true, is_capturing := true })
  else (none, c)

/-- Result of `child.try_wait()` at the end of the ~2 s grace window:
helper already exited, still running, or the check itself failed. -/
inductive SckCheck
  | exited
  | running
  | checkErr
deriving DecidableEq

/-- Error taxonomy of `start_capture` as surfaced to the selector. -/
inductive CaptureError
  | permissionDenied
  | unavailable
deriving DecidableEq

/-- Which backend a successful `start_capture` committed to. -/
inductive CaptureMethod
  | blackhole
  | sck
deriving DecidableEq

/-- The environment `MacOSSystemAudio::start_capture` probes: whether a
BlackHole input device was found, whether its config could be read, the
buffer snapshots its audio probe observes, whether the SCK helper binary
was found and spawned, and the helper's state after the grace window. -/
structure MacStartEnv where
  blackholeFound : Bool
  blackholeConfigOk : Bool
  snapshots : List (List Sample)
  helperBinaryFound : Bool
  helperSpawnOk : Bool
  helperStatus : SckCheck

/-- The ScreenCaptureKit fallback path of `start_capture`: spawn the
helper, wait the ~2 s grace window, then check the child process. -/
def MacOSSystemAudio.startSckPath (c1 : MacOSSystemAudio) (env : MacStartEnv) :
    (Except CaptureError Unit × Option CaptureMethod) × MacOSSystemAudio :=
  if env.helperBinaryFound && env.helperSpawnOk then
    let c2 : MacOSSystemAudio := { c1 with hasProcess := true }
    match env.helperStatus with
    | .exited =>
      ((.error .permissionDenied, none),
       { c2 with permission_denied := true, is_capturing := false, hasProcess := false })
    | .running =>
      ((.ok (), some .sck), { c2 with is_capturing := true, permission_denied := false })
    | .checkErr =>
      ((.ok (), some .sck), { c2 with is_capturing := true, permission_denied := false })
  else ((.error .unavailable, none), c1)

/-- `MacOSSystemAudio::start_capture` (the SystemAudioCapture impl):
stop first if already capturing; try BlackHole (both `Ok(true)` and
`Ok(false)` commit to it); fall through to the ScreenCaptureKit helper
only on a hard BlackHole start failure or when no device was found. -/
def MacOSSystemAudio.start_capture (c : MacOSSystemAudio) (env : MacStartEnv) :
    (Except CaptureError Unit × Option CaptureMethod) × MacOSSystemAudio :=
  let c0 := if c.is_capturing then c.stop_capture else c
  if env.blackholeFound then
    match c0.start_blackhole_capture env.blackholeConfigOk env.snapshots with
    | (some _, c1) => ((.ok (), some .blackhole), c1)
    | (none, c1) => c1.startSckPath env
  else c0.startSckPath env

/-- `WindowsSystemAudio` state (WASAPI loopback backend). -/
structure WindowsSystemAudio where
  is_capturing : Bool
  sample_buffer : List Sample
deriving DecidableEq

/-- `WindowsSystemAudio::read_samples`: identical drain discipline to the
macOS backend. -/
def WindowsSystemAudio.read_samples (c : WindowsSystemAudio) :
    Option (List Sample) × WindowsSystemAudio :=
  if c.sample_buffer.isEmpty then (none, c)
  else (some c.sample_buffer, { c with sample_buffer := [] })

/-- The WASAPI stream callback appending produced mono samples in order. -/
def WindowsSystemAudio.produce (c : WindowsSystemAudio) (new : List Sample) :
    WindowsSystemAudio :=
  { c with sample_buffer := c.sample_buffer ++ new }

/-! ### Probe lemmas and claims C2, C3, C8 -/

theorem probeChecksUsed_le_length (l : List (List Sample)) :
    probeChecksUsed l ≤ l.length := by
  induction l with
  | nil => simp [probeChecksUsed]
  | cons b rest ih =>
    unfold probeChecksUsed
    split
    · simp
    · simpa [Nat.add_comm] using ih

theorem probeRounds_iff (l : List (List Sample)) :
    probeRounds l = true ↔ ∃ b ∈ l, probeCheck b = true := by
  induction l with
  | nil => simp [probeRounds]
  | cons b rest ih =>
    unfold probeRounds
    by_cases hb : probeCheck b
    · simp [hb]
    · simp [hb, ih]

theorem probeRounds_early_stop (pre : List (List Sample)) (b : List Sample)
    (post : List (List Sample)) (hpre : ∀ x ∈ pre, probeCheck x = false)
    (hb : probeCheck b = true) :
    probeRounds (pre ++ b :: post) = true ∧
    probeChecksUsed (pre ++ b :: post) = pre.length + 1 := by
  induction pre with
  | nil => simp [probeRounds, probeChecksUsed, hb]
  | cons x xs ih =>
    have hx : probeCheck x = false := hpre x (by simp)
    have ih2 := ih (fun y hy => hpre y (by simp [hy]))
    simp only [List.cons_append, probeRounds, probeChecksUsed, hx, List.length_cons]
    have h1 := ih2.1
    have h2 := ih2.2
    constructor
    · simpa using h1
    · simp only [Bool.false_eq_true, if_false]
      simp only [List.append_eq] at h2 ⊢
      omega

/-- C2: Loopback probe and degraded success.  With a BlackHole device
found and its stream started (`configOk`), the probe performs at most 5
checks, detects audio exactly when some observed snapshot's most recent
second exceeds the RMS threshold, stops at the first detecting check, and
— detected or not — `start_capture` returns `Ok`, commits to the
BlackHole backend (never falling through to the helper), and leaves the
capture active. -/
theorem C2_loopback_probe_degraded_success (c : MacOSSystemAudio) (env : MacStartEnv)
    (h1 : env.blackholeFound = true) (h2 : env.blackholeConfigOk = true) :
    probeChecksUsed (env.snapshots.take 5) ≤ 5 ∧
    (probeAudio env.snapshots = true ↔
      ∃ b ∈ env.snapshots.take 5, probeCheck b = true) ∧
    (∀ pre b post, env.snapshots.take 5 = pre ++ b :: post →
      (∀ x ∈ pre, probeCheck x = false) → probeCheck b = true →
      probeAudio env.snapshots = true ∧
      probeChecksUsed (env.snapshots.take 5) = pre.length + 1) ∧
    (c.start_capture env).1.1 = .ok () ∧
    (c.start_capture env).1.2 = some .blackhole ∧
    (c.start_capture env).2.is_capturing = true := by
  refine ⟨?_, ?_, ?_, ?_, ?_, ?_⟩
  · calc probeChecksUsed (env.snapshots.take 5)
        ≤ (env.snapshots.take 5).length := probeChecksUsed_le_length _
      _ ≤ 5 := by simpa using List.length_take_le 5 env.snapshots
  · exact probeRounds_iff _
  · intro pre b post hsplit hpre hb
    have h := probeRounds_early_stop pre b post hpre hb
    rw [probeAudio, hsplit]
    exact h
  · simp [MacOSSystemAudio.start_capture, MacOSSystemAudio.start_blackhole_capture, h1, h2]
  · simp [MacOSSystemAudio.start_capture, MacOSSystemAudio.start_blackhole_capture, h1, h2]
  · simp [MacOSSystemAudio.start_capture, MacOSSystemAudio.start_blackhole_capture, h1, h2]

/-- Witness for C2: a fresh backend, a found and configured BlackHole
device, and five silent snapshots — the capture still starts. -/
theorem C2_loopback_probe_degraded_success_witness :
    ({ blackholeFound := true, blackholeConfigOk := true,
       snapshots := [[0], [0], [0], [0], [0]], helperBinaryFound := false,
       helperSpawnOk := false, helperStatus := .exited } : MacStartEnv).blackholeFound = true ∧
    ({ blackholeFound := true, blackholeConfigOk := true,
       snapshots := [[0], [0], [0], [0], [0]], helperBinaryFound := false,
       helperSpawnOk := false, helperStatus := .exited } : MacStartEnv).blackholeConfigOk = true ∧
    ((MacOSSystemAudio.new.start_capture
      { blackholeFound := true, blackholeConfigOk := true,
        snapshots := [[0], [0], [0], [0], [0]], helperBinaryFound := false,
        helperSpawnOk := false, helperStatus := .exited }).1.1 = .ok () ∧
     (MacOSSystemAudio.new.start_capture
      { blackholeFound := true, blackholeConfigOk := true,
        snapshots := [[0], [0], [0], [0], [0]], helperBinaryFound := false,
        helperSpawnOk := false, helperStatus := .exited }).2.is_capturing = true) := by
  have h := C2_loopback_probe_degraded_success MacOSSystemAudio.new
    { blackholeFound := true, blackholeConfigOk := true,
      snapshots := [[0], [0], [0], [0], [0]], helperBinaryFound := false,
      helperSpawnOk := false, helperStatus := .exited } rfl rfl
  exact ⟨rfl, rfl, h.2.2.2.1, h.2.2.2.2.2⟩

/-- C3: Helper-process grace window.  On the ScreenCaptureKit path, after
spawning the helper and waiting the ~2 s grace window: if the child has
already exited, the permission-denied flag is set, the backend is not
capturing, and a `PermissionDenied` error is returned; if it is still
running, `start_capture` returns `Ok` with the flag false and the capture
active. -/
theorem C3_helper_grace_window (c : MacOSSystemAudio) (env : MacStartEnv)
    (hb : env.blackholeFound = false ∨ env.blackholeConfigOk = false)
    (hf : env.helperBinaryFound = true) (hs : env.helperSpawnOk = true) :
    (env.helperStatus = .exited →
      (c.start_capture env).1.1 = .error .permissionDenied ∧
      (c.start_capture env).2.permission_denied = true ∧
      (c.start_capture env).2.is_capturing = false) ∧
    (env.helperStatus = .running →
      (c.start_capture env).1.1 = .ok () ∧
      (c.start_capture env).2.permission_denied = false ∧
      (c.start_capture env).2.is_capturing = true) := by
  constructor
  · intro hst
    rcases hb with hb | hb
    · simp [MacOSSystemAudio.start_capture, MacOSSystemAudio.startSckPath, hb, hf, hs, hst]
    · rcases h1 : env.blackholeFound with _ | _
      · simp [MacOSSystemAudio.start_capture, MacOSSystemAudio.startSckPath, h1, hf, hs, hst]
      · simp [MacOSSystemAudio.start_capture, MacOSSystemAudio.start_blackhole_capture,
          MacOSSystemAudio.startSckPath, h1, hb, hf, hs, hst]
  · intro hst
    rcases hb with hb | hb
    · simp [MacOSSystemAudio.start_capture, MacOSSystemAudio.startSckPath, hb, hf, hs, hst]
    · rcases h1 : env.blackholeFound with _ | _
      · simp [MacOSSystemAudio.start_capture, MacOSSystemAudio.startSckPath, h1, hf, hs, hst]
      · simp [MacOSSystemAudio.start_capture, MacOSSystemAudio.start_blackhole_capture,
          MacOSSystemAudio.startSckPath, h1, hb, hf, hs, hst]

/-- Witness for C3: no BlackHole device, helper spawned; check both the
exited and the running outcome at concrete environments. -/
theorem C3_helper_grace_window_witness :
    ((MacOSSystemAudio.new.start_capture
      { blackholeFound := false, blackholeConfigOk := false, snapshots := [],
        helperBinaryFound := true, helperSpawnOk := true,
        helperStatus := .exited }).1.1 = .error .permissionDenied ∧
     (MacOSSystemAudio.new.start_capture
      { blackholeFound := false, blackholeConfigOk := false, snapshots := [],
        helperBinaryFound := true, helperSpawnOk := true,
        helperStatus := .exited }).2.permission_denied = true) ∧
    ((MacOSSystemAudio.new.start_capture
      { blackholeFound := false, blackholeConfigOk := false, snapshots := [],
        helperBinaryFound := true, helperSpawnOk := true,
        helperStatus := .running }).1.1 = .ok () ∧
     (MacOSSystemAudio.new.start_capture
      { blackholeFound := false, blackholeConfigOk := false, snapshots := [],
        helperBinaryFound := true, helperSpawnOk := true,
        helperStatus := .running }).2.is_capturing = true) := by
  have h1 := C3_helper_grace_window MacOSSystemAudio.new
    { blackholeFound := false, blackholeConfigOk := false, snapshots := [],
      helperBinaryFound := true, helperSpawnOk := true, helperStatus := .exited }
    (Or.inl rfl) rfl rfl
  have h2 := C3_helper_grace_window MacOSSystemAudio.new
    { blackholeFound := false, blackholeConfigOk := false, snapshots := [],
      helperBinaryFound := true, helperSpawnOk := true, helperStatus := .running }
    (Or.inl rfl) rfl rfl
  exact ⟨⟨(h1.1 rfl).1, (h1.1 rfl).2.1⟩, ⟨(h2.2 rfl).1, (h2.2 rfl).2.2⟩⟩

/-- C8: read_samples drain semantics, for both the macOS and the Windows
backend: `None` exactly when the ring buffer is empty; otherwise the
entire buffered contents, in FIFO production order (appends concatenate
in order), leaving the buffer empty so that a second consecutive call
returns `None`. -/
theorem C8_read_samples_drain (c : MacOSSystemAudio) (w : WindowsSystemAudio)
    (a b : List Sample) :
    ((c.read_samples.1 = none ↔ c.sample_buffer = []) ∧
     (c.sample_buffer ≠ [] →
       c.read_samples.1 = some c.sample_buffer ∧
       (c.read_samples.2).sample_buffer = []) ∧
     ((c.read_samples.2).read_samples).1 = none ∧
     ((c.produce a).produce b).sample_buffer = c.sample_buffer ++ a ++ b) ∧
    ((w.read_samples.1 = none ↔ w.sample_buffer = []) ∧
     (w.sample_buffer ≠ [] →
       w.read_samples.1 = some w.sample_buffer ∧
       (w.read_samples.2).sample_buffer = []) ∧
     ((w.read_samples.2).read_samples).1 = none ∧
     ((w.produce a).produce b).sample_buffer = w.sample_buffer ++ a ++ b) := by
  constructor
  · refine ⟨?_, ?_, ?_, ?_⟩
    · by_cases h : c.sample_buffer = []
      · simp [MacOSSystemAudio.read_samples, h]
      · simp [MacOSSystemAudio.read_samples, h]
    · intro h
      simp [MacOSSystemAudio.read_samples, h]
    · by_cases h : c.sample_buffer = []
      · simp [MacOSSystemAudio.read_samples, h]
      · simp [MacOSSystemAudio.read_samples, h]
    · simp [MacOSSystemAudio.produce, List.append_assoc]
  · refine ⟨?_, ?_, ?_, ?_⟩
    · by_cases h : w.sample_buffer = []
      · simp [WindowsSystemAudio.read_samples, h]
      · simp [WindowsSystemAudio.read_samples, h]
    · intro h
      simp [WindowsSystemAudio.read_samples, h]
    · by_cases h : w.sample_buffer = []
      · simp [WindowsSystemAudio.read_samples, h]
      · simp [WindowsSystemAudio.read_samples, h]
    · simp [WindowsSystemAudio.produce, List.append_assoc]

/-- Witness for C8 at concrete backends with nonempty buffers. -/
theorem C8_read_samples_drain_witness :
    ({ MacOSSystemAudio.new with sample_buffer := [1] } : MacOSSystemAudio).sample_buffer ≠ [] ∧
    ({ is_capturing := true, sample_buffer := [2] } : WindowsSystemAudio).sample_buffer ≠ [] ∧
    (({ MacOSSystemAudio.new with sample_buffer := [1] } : MacOSSystemAudio).read_samples.1 =
       some [1] ∧
     (({ MacOSSystemAudio.new with sample_buffer := [1] } : MacOSSystemAudio).read_samples.2).sample_buffer = []) ∧
    (({ is_capturing := true, sample_buffer := [2] } : WindowsSystemAudio).read_samples.1 =
       some [2] ∧
     (({ is_capturing := true, sample_buffer := [2] } : WindowsSystemAudio).read_samples.2).sample_buffer = []) := by
  have h := C8_read_samples_drain
    { MacOSSystemAudio.new with sample_buffer := [1] }
    { is_capturing := true, sample_buffer := [2] } [] []
  refine ⟨by decide, by decide, ?_, ?_⟩
  · exact h.1.2.1 (by decide)
  · exact h.2.2.1 (by decide)

/-! ### RecordingOrchestrator (managers/audio.rs, AudioRecordingManager)

The manager's mutex-protected fields become one record.  The
`AudioRecorder` (microphone path) is abstracted to its buffered samples;
the system-capture box holds the macOS backend state.  Methods that do
real IO (device enumeration, spawning, settings reads) take the observed
outcomes as an explicit environment.  `start_microphone_stream` and
`try_start_recording` call each other in the source (the nested calls
would self-deadlock on the mutexes they already hold); the embedding
makes this mutual recursion explicit with a fuel parameter, fuel
exhaustion standing for the never-returning nested call. -/

/-- The `AudioRecorder` abstracted to its buffered samples. -/
structure RecorderState where
  buffered : List Sample
deriving DecidableEq

/-- `RecordingState` in managers/audio.rs. -/
inductive RecordingState
  | Idle
  | Recording (binding_id : String)
deriving DecidableEq

/-- `MicrophoneMode` in managers/audio.rs. -/
inductive MicrophoneMode
  | AlwaysOn
  | OnDemand
deriving DecidableEq

/-- `AudioSource` from settings (`audio_source.unwrap_or(Microphone)`
already applied). -/
inductive AudioSource
  | Microphone
  | SystemAudio
deriving DecidableEq

/-- The `AudioRecordingManager` fields relevant to the claims.
`alwaysOnSetting` is `settings.always_on_microphone` as read back from
the settings store; `audioSource` is the effective audio source. -/
structure ManagerState where
  state : RecordingState
  mode : MicrophoneMode
  alwaysOnSetting : Bool
  audioSource : AudioSource
  systemCapture : Option MacOSSystemAudio
  recorder : Option RecorderState
  isOpen : Bool
  isRecording : Bool
deriving DecidableEq

/-- `AudioRecordingManager::stop_microphone_stream`. -/
def stopMicrophoneStream (s : ManagerState) : ManagerState :=
  if s.isOpen then
    let s1 : ManagerState := { s with systemCapture := none }
    let s2 : ManagerState :=
      match s1.recorder with
      | some r =>
        if s1.isRecording then
          { s1 with recorder := some { r with buffered := [] }, isRecording := false }
        else s1
      | none => s1
    { s2 with state := .Idle, isOpen := false }
  else s

/-- The short-segment padding at the end of `stop_recording`:
`if s_len < WHISPER_SAMPLE_RATE && s_len > 0 { resize(WHISPER_SAMPLE_RATE
* 5 / 4, 0.0) }` — `Vec::resize` to a larger length appends zeros. -/
def padIfShort (samples : List Sample) : List Sample :=
  if samples.length < WHISPER_SAMPLE_RATE ∧ 0 < samples.length then
    samples ++ List.replicate (WHISPER_SAMPLE_RATE * 5 / 4 - samples.length) 0
  else samples

/-- The samples a matching `stop_recording` drains: the system capture's
ring buffer under SystemAudio (empty when the capture is gone), the
recorder's buffered samples otherwise. -/
def drainedSamples (s : ManagerState) : List Sample :=
  if s.audioSource = .SystemAudio then
    match s.systemCapture with
    | some cap => cap.sample_buffer
    | none => []
  else
    match s.recorder with
    | some r => r.buffered
    | none => []

/-- `AudioRecordingManager::stop_recording`. -/
def stopRecording (s : ManagerState) (binding_id : String) :
    Option (List Sample) × ManagerState :=
  match s.state with
  | .Recording active =>
    if active = binding_id then
      let s1 : ManagerState := { s with state := .Idle }
      let p : List Sample × ManagerState :=
        if s1.audioSource = .SystemAudio then
          match s1.systemCapture with
          | some cap =>
            let q := cap.read_samples
            (q.1.getD [], { s1 with systemCapture := some q.2 })
          | none => ([], s1)
        else
          match s1.recorder with
          | some r => (r.buffered, { s1 with recorder := some { r with buffered := [] } })
          | none => ([], s1)
      let s2 : ManagerState := { p.2 with isRecording := false }
      let s3 : ManagerState := if s2.mode = .OnDemand then stopMicrophoneStream s2 else s2
      (some (padIfShort p.1), s3)
    else (none, s)
  | .Idle => (none, s)

/-- `AudioRecordingManager::get_system_audio_status`: returns
`(is_open, has_audio_samples)`, deciding `has_audio` by calling
`read_samples` on the capture and checking non-emptiness of the result
(which drains the ring buffer). -/
def getSystemAudioStatus (s : ManagerState) : (Bool × Bool) × ManagerState :=
  if s.isOpen then
    match s.systemCapture with
    | some cap =>
      let q := cap.read_samples
      let hasAudio := match q.1 with
        | some l => !l.isEmpty
        | none => false
      ((true, hasAudio), { s with systemCapture := some q.2 })
    | none => ((true, false), s)
  else ((false, false), s)

/-- Outcomes of the IO the start paths perform, observed as inputs:
the macOS capture-start environment, and whether creating / opening /
starting the microphone `AudioRecorder` succeeds. -/
structure StartEnv where
  macEnv : MacStartEnv
  recorderCreateOk : Bool
  recorderOpenOk : Bool
  recorderStartOk : Bool

/-- Which manager operation to run (used to express the source's mutual
recursion between `start_microphone_stream` and `try_start_recording`
as one fuel-indexed function). -/
inductive MgrOp
  | startStream
  | tryStart (binding_id : String)

/-- `start_microphone_stream` / `try_start_recording`, fuel-indexed.
At fuel 0 the nested call that would deadlock in the source is cut off
with failure; every claim is settled at ample fuel.  Only the macOS
SystemAudio backend is instantiated (the claims' code citations). -/
def mgrStep : ℕ → StartEnv → ManagerState → MgrOp → ManagerState × Bool
  | 0, _, s, _ => (s, false)
  | fuel + 1, env, s, .startStream =>
    if s.isOpen then
      -- already-open branch: possibly ensure auto-transcription
      if s.alwaysOnSetting ∧ s.audioSource = .SystemAudio ∧ s.isRecording = false then
        ((mgrStep fuel env s (.tryStart "transcribe")).1, true)
      else (s, true)
    else
      if s.audioSource = .SystemAudio then
        match MacOSSystemAudio.new.start_capture env.macEnv with
        | ((.ok _, _), cap1) =>
          let s1 : ManagerState := { s with systemCapture := some cap1, isOpen := true }
          if s1.alwaysOnSetting then
            ((mgrStep fuel env s1 (.tryStart "transcribe")).1, true)
          else (s1, true)
        | ((.error _, _), _) => ({ s with isOpen := false }, false)
      else
        -- microphone path: lazily create the recorder, then open it
        match s.recorder with
        | none =>
          if env.recorderCreateOk then
            let s1 : ManagerState := { s with recorder := some { buffered := [] } }
            if env.recorderOpenOk then ({ s1 with isOpen := true }, true)
            else (s1, false)
          else (s, false)
        | some _ =>
          if env.recorderOpenOk then ({ s with isOpen := true }, true)
          else (s, false)
  | fuel + 1, env, s, .tryStart binding_id =>
    match s.state with
    | .Recording _ => (s, false)
    | .Idle =>
      let p : ManagerState × Bool :=
        if s.mode = .OnDemand then mgrStep fuel env s .startStream
        else (s, true)
      if p.2 then
        let s1 := p.1
        if s1.audioSource = .SystemAudio then
          match s1.systemCapture with
          | some cap =>
            let q := cap.read_samples
            ({ s1 with systemCapture := some q.2, isRecording := true,
                       state := .Recording binding_id }, true)
          | none => (s1, false)
        else
          match s1.recorder with
          | some _ =>
            if env.recorderStartOk then
              ({ s1 with isRecording := true, state := .Recording binding_id }, true)
            else (s1, false)
          | none => (s1, false)
      else (p.1, false)

/-- `AudioRecordingManager::start_microphone_stream`. -/
def startMicrophoneStream (fuel : ℕ) (env : StartEnv) (s : ManagerState) :
    ManagerState × Bool :=
  mgrStep fuel env s .startStream

/-- `AudioRecordingManager::try_start_recording`. -/
def tryStartRecording (fuel : ℕ) (env : StartEnv) (s : ManagerState)
    (binding_id : String) : ManagerState × Bool :=
  mgrStep fuel env s (.tryStart binding_id)

/-- What one `capture.read_samples()` call of the sliding-window loop
observes in the concurrently filled ring buffer. -/
inductive ReadOutcome
  | err
  | noData
  | data (samples : List Sample)
deriving DecidableEq

/-- One iteration of the always-on sliding-window transcription loop
(the `loop` body in `start_microphone_stream`), after the initial sleep.
Returns `none` when the loop breaks; otherwise the manager state after a
possible recording restart, the segment extracted for transcription (if
any) and the new accumulation buffer.  `resample` abstracts the
`FrameResampler::push` output on the newly read samples. -/
def loopIterationStep (fuel : ℕ) (env : StartEnv)
    (resample : List Sample → List Sample) (s : ManagerState)
    (read : ReadOutcome) (buf : List Sample) :
    Option (ManagerState × List Sample × List Sample) :=
  if s.alwaysOnSetting = false then none
  else if ¬ (s.audioSource = .SystemAudio) then none
  else
    let p : ManagerState × Bool :=
      if s.isRecording = false then tryStartRecording fuel env s "transcribe"
      else (s, true)
    if p.2 = false then none
    else
      let newSamples : Option (List Sample) :=
        match p.1.systemCapture with
        | some _ =>
          match read with
          | .data l => if l.isEmpty then none else some l
          | .noData => none
          | .err => none
        | none => none
      let buf1 := match newSamples with
        | some l => buf ++ resample l
        | none => buf
      let q := slideExtract buf1
      some (p.1, q.1, q.2)

/-! ### Helper lemmas and concrete states for the manager claims -/

theorem MacOSSystemAudio.read_samples_snd (c : MacOSSystemAudio) :
    (c.read_samples).2 = { c with sample_buffer := [] } := by
  unfold MacOSSystemAudio.read_samples
  by_cases h : c.sample_buffer.isEmpty
  · cases c
    simp_all [List.isEmpty_iff]
  · simp [h]

theorem MacOSSystemAudio.read_samples_fst_getD (c : MacOSSystemAudio) :
    (c.read_samples).1.getD [] = c.sample_buffer := by
  unfold MacOSSystemAudio.read_samples
  by_cases h : c.sample_buffer.isEmpty
  · simp_all [List.isEmpty_iff]
  · simp [h]

/-- A start environment in which everything observable succeeds. -/
def envAllOk : StartEnv :=
  { macEnv := { blackholeFound := true, blackholeConfigOk := true, snapshots := [],
                helperBinaryFound := false, helperSpawnOk := false,
                helperStatus := .running },
    recorderCreateOk := true, recorderOpenOk := true, recorderStartOk := true }

/-- An active BlackHole capture with an empty ring buffer. -/
def capIdleBuf : MacOSSystemAudio :=
  { is_capturing := true, permission_denied := false, sample_buffer := [],
    hasProcess := false, use_blackhole := true }

/-- The same capture with one pending sample. -/
def capWithOne : MacOSSystemAudio := { capIdleBuf with sample_buffer := [1] }

/-- An always-on SystemAudio manager: stream open, not recording. -/
def mgrOpenIdle : ManagerState :=
  { state := .Idle, mode := .AlwaysOn, alwaysOnSetting := true,
    audioSource := .SystemAudio, systemCapture := some capIdleBuf,
    recorder := none, isOpen := true, isRecording := false }

/-- The same manager while a recording session "a" is active, with an
empty capture buffer. -/
def mgrRecordingEmpty : ManagerState :=
  { mgrOpenIdle with state := .Recording "a", isRecording := true }

/-- The same recording manager with a 3-sample capture buffer. -/
def mgrRecordingThree : ManagerState :=
  { mgrRecordingEmpty with
      systemCapture := some { capIdleBuf with sample_buffer := [5, 5, 5] } }

/-! ### C4: short-segment padding -/

theorem stopRecording_matching_fst (s : ManagerState) (binding_id : String)
    (h : s.state = .Recording binding_id) :
    (stopRecording s binding_id).1 = some (padIfShort (drainedSamples s)) := by
  by_cases ha : s.audioSource = .SystemAudio
  · rcases hsc : s.systemCapture with _ | cap
    · simp [stopRecording, h, drainedSamples, ha, hsc]
    · simp [stopRecording, h, drainedSamples, ha, hsc,
        MacOSSystemAudio.read_samples_fst_getD]
  · rcases hr : s.recorder with _ | r
    · simp [stopRecording, h, drainedSamples, ha, hr]
    · simp [stopRecording, h, drainedSamples, ha, hr]

/-- C4 counterexample: a matching stop with an empty drained buffer
returns the empty segment unchanged — it is shorter than 1 second
(0 < 16000 samples) yet not padded to 20000 samples, contradicting the
claim as stated for this returned segment. -/
theorem C4_empty_segment_not_padded :
    (stopRecording mgrRecordingEmpty "a").1 = some [] ∧
    ([] : List Sample).length < WHISPER_SAMPLE_RATE ∧
    ([] : List Sample).length ≠ WHISPER_SAMPLE_RATE * 5 / 4 := by
  refine ⟨rfl, by decide, by decide⟩

/-- C4 amended: every segment returned by a matching `stop_recording` is
`padIfShort` of the drained samples; a *nonempty* segment shorter than
1 second is zero-padded at the end to exactly 1.25 s (20000 samples)
with the original samples as a prefix; a segment of at least 1 second —
and also the empty segment — is returned unchanged. -/
theorem C4_segment_padding_amended (s : ManagerState) (binding_id : String)
    (h : s.state = .Recording binding_id) :
    (stopRecording s binding_id).1 = some (padIfShort (drainedSamples s)) ∧
    (∀ d : List Sample, 0 < d.length → d.length < WHISPER_SAMPLE_RATE →
      (padIfShort d).length = WHISPER_SAMPLE_RATE * 5 / 4 ∧
      (padIfShort d).take d.length = d ∧
      (padIfShort d).drop d.length =
        List.replicate (WHISPER_SAMPLE_RATE * 5 / 4 - d.length) 0) ∧
    (∀ d : List Sample, WHISPER_SAMPLE_RATE ≤ d.length → padIfShort d = d) ∧
    padIfShort [] = [] := by
  refine ⟨stopRecording_matching_fst s binding_id h, ?_, ?_, ?_⟩
  · intro d hpos hshort
    have hcond : d.length < WHISPER_SAMPLE_RATE ∧ 0 < d.length := ⟨hshort, hpos⟩
    have hW : WHISPER_SAMPLE_RATE = 16000 := rfl
    have hP : WHISPER_SAMPLE_RATE * 5 / 4 = 20000 := by norm_num [hW]
    refine ⟨?_, ?_, ?_⟩
    · rw [padIfShort, if_pos hcond, List.length_append, List.length_replicate]
      omega
    · rw [padIfShort, if_pos hcond, List.take_left]
    · rw [padIfShort, if_pos hcond, List.drop_left]
  · intro d hlong
    rw [padIfShort, if_neg]
    intro hc
    omega
  · rw [padIfShort, if_neg]
    intro hc
    simp at hc

/-- Witness for C4 (amended) at a concrete recording manager holding a
3-sample buffer. -/
theorem C4_segment_padding_amended_witness :
    mgrRecordingThree.state = .Recording "a" ∧
    (stopRecording mgrRecordingThree "a").1 =
      some (padIfShort (drainedSamples mgrRecordingThree)) ∧
    (padIfShort [5, 5, 5]).length = WHISPER_SAMPLE_RATE * 5 / 4 := by
  have h : mgrRecordingThree.state = .Recording "a" := rfl
  have happ := C4_segment_padding_amended mgrRecordingThree "a" h
  refine ⟨h, happ.1, ?_⟩
  exact (happ.2.1 [5, 5, 5] (by decide) (by decide)).1

/-! ### C5: stale stop is an atomic no-op -/

/-- C5: calling `stop_recording` while Idle, or with a binding id that
does not match the active recording session, returns `None` and leaves
the whole manager state — recording state, open flag, recorder, capture
and all buffered samples — unchanged. -/
theorem C5_stale_stop_noop (s : ManagerState) (binding_id : String)
    (h : s.state = .Idle ∨ ∃ a, s.state = .Recording a ∧ a ≠ binding_id) :
    stopRecording s binding_id = (none, s) := by
  rcases h with h | ⟨a, ha, hne⟩
  · simp [stopRecording, h]
  · simp [stopRecording, ha, hne]

/-- Witness for C5: a stop for session "b" arriving while session "a"
is recording is ignored. -/
theorem C5_stale_stop_noop_witness :
    (mgrRecordingEmpty.state = .Idle ∨
      ∃ a, mgrRecordingEmpty.state = .Recording a ∧ a ≠ "b") ∧
    stopRecording mgrRecordingEmpty "b" = (none, mgrRecordingEmpty) := by
  have h : mgrRecordingEmpty.state = .Idle ∨
      ∃ a, mgrRecordingEmpty.state = .Recording a ∧ a ≠ "b" :=
    Or.inr ⟨"a", rfl, by decide⟩
  exact ⟨h, C5_stale_stop_noop mgrRecordingEmpty "b" h⟩

/-! ### C10: the status query drains the ring buffer -/

/-- C10: `get_system_audio_status` is not read-only.  When the stream is
open and a capture is present it calls `read_samples`, discards the
returned samples, and reports only their non-emptiness: afterwards the
capture's ring buffer is empty, so the samples a subsequent matching
stop (or the sliding-window loop) would have drained are gone. -/
theorem C10_status_query_drains (s : ManagerState) (cap : MacOSSystemAudio)
    (h1 : s.isOpen = true) (h2 : s.systemCapture = some cap) :
    (getSystemAudioStatus s).1 = (true, !cap.sample_buffer.isEmpty) ∧
    (getSystemAudioStatus s).2 =
      { s with systemCapture := some { cap with sample_buffer := [] } } ∧
    (s.audioSource = .SystemAudio → drainedSamples (getSystemAudioStatus s).2 = []) := by
  have hsnd := MacOSSystemAudio.read_samples_snd cap
  have hmain : getSystemAudioStatus s =
      ((true, !cap.sample_buffer.isEmpty),
       { s with systemCapture := some { cap with sample_buffer := [] } }) := by
    by_cases hb : cap.sample_buffer.isEmpty
    · simp [getSystemAudioStatus, MacOSSystemAudio.read_samples, h1, h2, hb, hsnd]
      cases cap
      simp_all [List.isEmpty_iff]
    · simp [getSystemAudioStatus, MacOSSystemAudio.read_samples, h1, h2, hb]
  refine ⟨by rw [hmain], by rw [hmain], ?_⟩
  intro hsa
  rw [hmain]
  simp [drainedSamples, hsa]

/-- Witness for C10: a status poll on an open stream whose capture holds
one buffered sample empties the buffer while reporting audio present. -/
theorem C10_status_query_drains_witness :
    ({ mgrOpenIdle with systemCapture := some capWithOne } : ManagerState).isOpen = true ∧
    ({ mgrOpenIdle with systemCapture := some capWithOne } : ManagerState).systemCapture =
      some capWithOne ∧
    (getSystemAudioStatus { mgrOpenIdle with systemCapture := some capWithOne }).1 =
      (true, !capWithOne.sample_buffer.isEmpty) ∧
    (getSystemAudioStatus { mgrOpenIdle with systemCapture := some capWithOne }).2 =
      { ({ mgrOpenIdle with systemCapture := some capWithOne } : ManagerState) with
          systemCapture := some { capWithOne with sample_buffer := [] } } := by
  have happ := C10_status_query_drains
    { mgrOpenIdle with systemCapture := some capWithOne } capWithOne rfl rfl
  exact ⟨rfl, rfl, happ.1, happ.2.1⟩

/-! ### C6, C7: start idempotence claims -/

theorem mgrStep_startStream_open_ok (fuel : ℕ) (env : StartEnv) (s : ManagerState)
    (h2 : s.isOpen = true) :
    (mgrStep (fuel + 1) env s .startStream).2 = true := by
  simp only [mgrStep]
  by_cases hc : s.alwaysOnSetting = true ∧ s.audioSource = .SystemAudio ∧
      s.isRecording = false
  · simp [h2, hc]
  · simp [h2, hc]

theorem mgrStep_startStream_open_noauto (fuel : ℕ) (env : StartEnv) (s : ManagerState)
    (h2 : s.isOpen = true)
    (hno : ¬ (s.alwaysOnSetting = true ∧ s.audioSource = .SystemAudio ∧
      s.isRecording = false)) :
    mgrStep (fuel + 1) env s .startStream = (s, true) := by
  simp only [mgrStep]
  simp [h2, hno]

/-- C6 counterexample: from Idle with the stream already open, the first
`try_start_recording` succeeds, but the second call in a row returns
false, because the state is now `Recording` — the claim's "succeeds both
times" fails on the second call. -/
theorem C6_second_call_returns_false :
    (tryStartRecording 5 envAllOk mgrOpenIdle "b").2 = true ∧
    (tryStartRecording 5 envAllOk
      (tryStartRecording 5 envAllOk mgrOpenIdle "b").1 "b").2 = false :=
  ⟨rfl, rfl⟩

/-- C6 amended: from Idle with the stream open (SystemAudio, capture
present, and a consistent mode/setting pair), the first
`try_start_recording` returns true without opening a second backend (the
open flag stays set and the existing capture handle is kept, its pending
buffer merely cleared); a second call in a row then returns false and
changes nothing, since the state is already `Recording`. -/
theorem C6_try_start_amended (fuel : ℕ) (env : StartEnv) (s : ManagerState)
    (binding_id : String) (cap : MacOSSystemAudio)
    (h1 : s.state = .Idle) (h2 : s.isOpen = true)
    (h3 : s.mode = .AlwaysOn ∨ (s.mode = .OnDemand ∧ s.alwaysOnSetting = false))
    (h4 : s.audioSource = .SystemAudio) (h5 : s.systemCapture = some cap) :
    tryStartRecording (fuel + 2) env s binding_id =
      ({ s with systemCapture := some { cap with sample_buffer := [] },
                isRecording := true, state := .Recording binding_id }, true) ∧
    (tryStartRecording (fuel + 2) env s binding_id).1.isOpen = true ∧
    tryStartRecording (fuel + 2) env
        (tryStartRecording (fuel + 2) env s binding_id).1 binding_id =
      ((tryStartRecording (fuel + 2) env s binding_id).1, false) := by
  have hfirst : tryStartRecording (fuel + 2) env s binding_id =
      ({ s with systemCapture := some { cap with sample_buffer := [] },
                isRecording := true, state := .Recording binding_id }, true) := by
    rcases h3 with h3 | ⟨h3, h3b⟩
    · unfold tryStartRecording
      simp only [mgrStep]
      rw [h1]
      simp [h3, h4, h5, MacOSSystemAudio.read_samples_snd]
    · unfold tryStartRecording
      simp only [mgrStep]
      rw [h1]
      simp [h3, h2, h3b, h4, h5, MacOSSystemAudio.read_samples_snd]
  refine ⟨hfirst, by rw [hfirst]; exact h2, ?_⟩
  rw [hfirst]
  unfold tryStartRecording
  simp only [mgrStep]

/-- Witness for C6 (amended) at the concrete always-on manager. -/
theorem C6_try_start_amended_witness :
    mgrOpenIdle.state = .Idle ∧ mgrOpenIdle.isOpen = true ∧
    mgrOpenIdle.mode = .AlwaysOn ∧
    mgrOpenIdle.audioSource = .SystemAudio ∧
    mgrOpenIdle.systemCapture = some capIdleBuf ∧
    ((tryStartRecording (3 + 2) envAllOk mgrOpenIdle "b").2 = true ∧
     tryStartRecording (3 + 2) envAllOk
        (tryStartRecording (3 + 2) envAllOk mgrOpenIdle "b").1 "b" =
      ((tryStartRecording (3 + 2) envAllOk mgrOpenIdle "b").1, false)) := by
  have happ := C6_try_start_amended 3 envAllOk mgrOpenIdle "b" capIdleBuf
    rfl rfl (Or.inl rfl) rfl rfl
  exact ⟨rfl, rfl, rfl, rfl, rfl, by rw [happ.1], happ.2.2⟩

/-- C7 counterexample: with the stream already open in the always-on
SystemAudio configuration and no recording active,
`start_microphone_stream` returns `Ok` but is not side-effect free: it
flips the recording state to `Recording "transcribe"` and clears the
capture's pending ring buffer; likewise the macOS backend's
`start_capture` on an already-capturing instance stops it first,
discarding the buffered samples, rather than returning success without
side effects. -/
theorem C7_already_open_has_side_effects :
    (startMicrophoneStream 5 envAllOk
      { mgrOpenIdle with systemCapture := some capWithOne }).2 = true ∧
    ({ mgrOpenIdle with systemCapture := some capWithOne } : ManagerState).state = .Idle ∧
    (startMicrophoneStream 5 envAllOk
      { mgrOpenIdle with systemCapture := some capWithOne }).1.state =
        .Recording "transcribe" ∧
    (startMicrophoneStream 5 envAllOk
      { mgrOpenIdle with systemCapture := some capWithOne }).1.systemCapture =
        some { capWithOne with sample_buffer := [] } ∧
    capWithOne.sample_buffer ≠ [] ∧
    capWithOne.is_capturing = true ∧
    ((capWithOne.start_capture envAllOk.macEnv).2).sample_buffer = [] :=
  ⟨rfl, rfl, rfl, rfl, by decide, rfl, rfl⟩

/-- C7 amended: `start_microphone_stream` with the stream already open
returns `Ok` and never opens a second backend; it is side-effect free
except in the always-on SystemAudio not-recording configuration, where
it auto-starts the transcription recording.  A backend `start_capture`
while already capturing equals stop-then-start: the old capture is torn
down (leaving `is_capturing` false until the restart) before the new one
begins, so no second concurrent backend ever exists — but it is not
side-effect free. -/
theorem C7_stream_open_idempotence_amended (fuel : ℕ) (env : StartEnv)
    (s : ManagerState) (c : MacOSSystemAudio)
    (hopen : s.isOpen = true) (hcap : c.is_capturing = true) :
    (startMicrophoneStream (fuel + 1) env s).2 = true ∧
    (¬ (s.alwaysOnSetting = true ∧ s.audioSource = .SystemAudio ∧
        s.isRecording = false) →
      (startMicrophoneStream (fuel + 1) env s).1 = s) ∧
    c.start_capture env.macEnv = (c.stop_capture).start_capture env.macEnv ∧
    (c.stop_capture).is_capturing = false := by
  have hstop : (c.stop_capture).is_capturing = false := by
    unfold MacOSSystemAudio.stop_capture
    by_cases hb : c.use_blackhole
    · simp [hcap, hb]
    · simp [hcap, hb]
  refine ⟨mgrStep_startStream_open_ok fuel env s hopen, ?_, ?_, hstop⟩
  · intro hno
    have := mgrStep_startStream_open_noauto fuel env s hopen hno
    unfold startMicrophoneStream
    rw [this]
  · unfold MacOSSystemAudio.start_capture
    simp [hcap, hstop]

/-- Witness for C7 (amended): an OnDemand manager with the stream open
and a capturing backend instance. -/
theorem C7_stream_open_idempotence_amended_witness :
    ({ mgrOpenIdle with mode := .OnDemand, alwaysOnSetting := false } :
      ManagerState).isOpen = true ∧
    capIdleBuf.is_capturing = true ∧
    ((startMicrophoneStream (3 + 1) envAllOk
        { mgrOpenIdle with mode := .OnDemand, alwaysOnSetting := false }).2 = true ∧
     (startMicrophoneStream (3 + 1) envAllOk
        { mgrOpenIdle with mode := .OnDemand, alwaysOnSetting := false }).1 =
       { mgrOpenIdle with mode := .OnDemand, alwaysOnSetting := false } ∧
     (capIdleBuf.stop_capture).is_capturing = false) := by
  have happ := C7_stream_open_idempotence_amended 3 envAllOk
    { mgrOpenIdle with mode := .OnDemand, alwaysOnSetting := false } capIdleBuf rfl rfl
  exact ⟨rfl, rfl, happ.1, happ.2.1 (by decide), happ.2.2.2⟩

/-! ### C9: loop termination conditions -/

/-- C9 counterexample: at the top of an iteration the mode is still
always-on and the source is still SystemAudio, yet the loop exits,
because recording is inactive and `try_start_recording` fails (the
capture handle is gone) — a third exit condition the claim omits. -/
theorem C9_restart_failure_exits :
    ({ mgrOpenIdle with systemCapture := none } : ManagerState).alwaysOnSetting = true ∧
    ({ mgrOpenIdle with systemCapture := none } : ManagerState).audioSource = .SystemAudio ∧
    ({ mgrOpenIdle with systemCapture := none } : ManagerState).isRecording = false ∧
    loopIterationStep 5 envAllOk id
      { mgrOpenIdle with systemCapture := none } .noData [] = none :=
  ⟨rfl, rfl, rfl, rfl⟩

/-- C9 amended: an iteration of the sliding-window loop exits exactly
when, at its top, always-on is off, or the source is no longer
SystemAudio, or recording is inactive and cannot be restarted
(`try_start_recording` fails); the backend read's outcome — error, empty
or data — and the accumulation buffer never influence whether the loop
exits. -/
theorem C9_loop_exit_amended (fuel : ℕ) (env : StartEnv)
    (resample resample2 : List Sample → List Sample) (s : ManagerState)
    (read read2 : ReadOutcome) (buf buf2 : List Sample) :
    (loopIterationStep fuel env resample s read buf = none ↔
      (s.alwaysOnSetting = false ∨ ¬ (s.audioSource = .SystemAudio) ∨
       (s.isRecording = false ∧
        (tryStartRecording fuel env s "transcribe").2 = false))) ∧
    (loopIterationStep fuel env resample s read buf).isNone =
      (loopIterationStep fuel env resample2 s read2 buf2).isNone := by
  have key : ∀ (rs : List Sample → List Sample) (rd : ReadOutcome) (bf : List Sample),
      loopIterationStep fuel env rs s rd bf = none ↔
      (s.alwaysOnSetting = false ∨ ¬ (s.audioSource = .SystemAudio) ∨
       (s.isRecording = false ∧
        (tryStartRecording fuel env s "transcribe").2 = false)) := by
    intro rs rd bf
    unfold loopIterationStep
    by_cases hA : s.alwaysOnSetting = false
    · simp [hA]
    · by_cases hS : s.audioSource = .SystemAudio
      · by_cases hR : s.isRecording = false
        · by_cases hT : (tryStartRecording fuel env s "transcribe").2 = false
          · simp [hA, hS, hR, hT]
          · simp [hA, hS, hR, hT]
        · simp [hA, hS, hR]
      · simp [hA, hS]
  refine ⟨key resample read buf, ?_⟩
  have k1 := key resample read buf
  have k2 := key resample2 read2 buf2
  rcases e1 : loopIterationStep fuel env resample s read buf with _ | v1 <;>
    rcases e2 : loopIterationStep fuel env resample2 s read2 buf2 with _ | v2 <;>
      simp_all

end HandyClone
